import Mathlib

/-!
Shallow embedding of the BANKACCOUNT repository.

Source files:
* `bank_account.py` — a minimal `BankAccount` class holding only a balance
  (embedded here as `SimpleBankAccount`, since Lean cannot host two
  structures of the same name);
* `bank_account_integration.py` — `NotificationSystem` and the integration
  `BankAccount` with a transaction history and an optional notifier.

Python's mutable objects are embedded by explicit state passing: every
mutating method becomes a function returning the updated object (paired
with the method's return value where the method returns one).  Numeric
amounts and balances are embedded as `ℚ`, matching the signed
decimal-capable numbers the code manipulates.
-/

/-- The `'type'` field of a transaction-history entry:
`'deposit'` or `'withdrawal'`. -/
inductive TxKind where
  | deposit
  | withdrawal
deriving DecidableEq, Repr

/-- One entry of `BankAccount.transaction_history`: the dict
`{'type': ..., 'amount': amount, 'balance_after': self.balance}`. -/
structure Txn where
  kind : TxKind
  amount : ℚ
  balance_after : ℚ
deriving DecidableEq, Repr

/-- One entry of `NotificationSystem.notifications`: the dict
`{'message': message, 'type': notification_type, 'timestamp': None}`.
The `timestamp` field is kept (always `none`) to mirror the schema. -/
structure Notification where
  message : String
  category : String
  timestamp : Option Unit
deriving DecidableEq, Repr

/-- `class NotificationSystem`: holds the ordered list `self.notifications`. -/
structure NotificationSystem where
  notifications : List Notification
deriving DecidableEq, Repr

/-- `NotificationSystem.__init__`: `self.notifications = []`. -/
def NotificationSystem.init : NotificationSystem := ⟨[]⟩

/-- `NotificationSystem.send_notification(message, notification_type)`:
appends `{'message': message, 'type': notification_type, 'timestamp': None}`
and returns `True`. -/
def NotificationSystem.send_notification (ns : NotificationSystem)
    (message : String) (notification_type : String) :
    Bool × NotificationSystem :=
  (true, ⟨ns.notifications ++ [⟨message, notification_type, none⟩]⟩)

/-- `NotificationSystem.get_notifications`: returns `self.notifications`. -/
def NotificationSystem.get_notifications (ns : NotificationSystem) :
    List Notification :=
  ns.notifications

/-- `NotificationSystem.clear_notifications`: `self.notifications = []`. -/
def NotificationSystem.clear_notifications (_ns : NotificationSystem) :
    NotificationSystem :=
  ⟨[]⟩

/-- Rendering of a rational with exactly two fractional decimal digits,
embedding the Python format specifier `:.2f` used in the notification
messages (`f"... ${amount:.2f} ..."`).  The value is scaled to cents and
rounded to the nearest integer. -/
def fmt2 (q : ℚ) : String :=
  let cents : Int := Rat.floor (q * 100 + 1 / 2)
  let sign : String := if cents < 0 then "-" else ""
  let n : Nat := cents.natAbs
  let frac : Nat := n % 100
  sign ++ toString (n / 100) ++ "." ++
    (if frac < 10 then "0" ++ toString frac else toString frac)

/-- `class BankAccount` of `bank_account_integration.py`: balance, optional
notification system, transaction history. -/
structure BankAccount where
  balance : ℚ
  notification_system : Option NotificationSystem
  transaction_history : List Txn
deriving DecidableEq, Repr

/-- `BankAccount.__init__(initial_balance, notification_system)`:
`self.balance = initial_balance`, `self.notification_system = notification_system`,
`self.transaction_history = []`. -/
def BankAccount.init (initial_balance : ℚ)
    (notification_system : Option NotificationSystem) : BankAccount :=
  ⟨initial_balance, notification_system, []⟩

/-- `BankAccount.deposit(amount)`: on `amount > 0`, add to the balance,
append a history record, send a notification when a notification system is
attached, and return `True`; otherwise return `False` with no mutation. -/
def BankAccount.deposit (acc : BankAccount) (amount : ℚ) :
    Bool × BankAccount :=
  if amount > 0 then
    let balance := acc.balance + amount
    let transaction_history :=
      acc.transaction_history ++ [⟨TxKind.deposit, amount, balance⟩]
    let notification_system :=
      match acc.notification_system with
      | some ns =>
          some (ns.send_notification
            ("Deposit of $" ++ fmt2 amount ++ " successful. New balance: $"
              ++ fmt2 balance) "deposit").2
      | none => none
    (true, ⟨balance, notification_system, transaction_history⟩)
  else
    (false, acc)

/-- `BankAccount.withdraw(amount)`: on `0 < amount <= self.balance`,
subtract from the balance, append a history record, send a notification
when a notification system is attached, and return `True`; otherwise
return `False` with no mutation. -/
def BankAccount.withdraw (acc : BankAccount) (amount : ℚ) :
    Bool × BankAccount :=
  if 0 < amount ∧ amount ≤ acc.balance then
    let balance := acc.balance - amount
    let transaction_history :=
      acc.transaction_history ++ [⟨TxKind.withdrawal, amount, balance⟩]
    let notification_system :=
      match acc.notification_system with
      | some ns =>
          some (ns.send_notification
            ("Withdrawal of $" ++ fmt2 amount ++ " successful. New balance: $"
              ++ fmt2 balance) "withdrawal").2
      | none => none
    (true, ⟨balance, notification_system, transaction_history⟩)
  else
    (false, acc)

/-- `BankAccount.get_balance`: returns `self.balance`. -/
def BankAccount.get_balance (acc : BankAccount) : ℚ :=
  acc.balance

/-- `BankAccount.get_transaction_history`: returns `self.transaction_history`. -/
def BankAccount.get_transaction_history (acc : BankAccount) : List Txn :=
  acc.transaction_history

/-- `BankAccount.set_notification_system(notification_system)`: replaces
`self.notification_system`. -/
def BankAccount.set_notification_system (acc : BankAccount)
    (notification_system : Option NotificationSystem) : BankAccount :=
  ⟨acc.balance, notification_system, acc.transaction_history⟩

/-! ### Basic lemmas about `deposit` and `withdraw` -/

theorem deposit_pos_fst (acc : BankAccount) (a : ℚ) (h : 0 < a) :
    (acc.deposit a).1 = true := by
  simp [BankAccount.deposit, h]

theorem deposit_pos_balance (acc : BankAccount) (a : ℚ) (h : 0 < a) :
    (acc.deposit a).2.balance = acc.balance + a := by
  simp [BankAccount.deposit, h]

theorem deposit_pos_history (acc : BankAccount) (a : ℚ) (h : 0 < a) :
    (acc.deposit a).2.transaction_history
      = acc.transaction_history ++ [⟨TxKind.deposit, a, acc.balance + a⟩] := by
  simp [BankAccount.deposit, h]

theorem deposit_pos_notif (acc : BankAccount) (ns : NotificationSystem) (a : ℚ)
    (h : 0 < a) (hns : acc.notification_system = some ns) :
    (acc.deposit a).2.notification_system
      = some ⟨ns.notifications ++
          [⟨"Deposit of $" ++ fmt2 a ++ " successful. New balance: $"
              ++ fmt2 (acc.balance + a), "deposit", none⟩]⟩ := by
  simp [BankAccount.deposit, h, hns, NotificationSystem.send_notification]

theorem deposit_pos_notif_none (acc : BankAccount) (a : ℚ)
    (h : 0 < a) (hns : acc.notification_system = none) :
    (acc.deposit a).2.notification_system = none := by
  simp [BankAccount.deposit, h, hns]

theorem deposit_nonpos_eq (acc : BankAccount) (a : ℚ) (h : ¬ 0 < a) :
    acc.deposit a = (false, acc) := by
  simp [BankAccount.deposit, h]

theorem withdraw_ok_fst (acc : BankAccount) (a : ℚ)
    (h1 : 0 < a) (h2 : a ≤ acc.balance) :
    (acc.withdraw a).1 = true := by
  simp [BankAccount.withdraw, h1, h2]

theorem withdraw_ok_balance (acc : BankAccount) (a : ℚ)
    (h1 : 0 < a) (h2 : a ≤ acc.balance) :
    (acc.withdraw a).2.balance = acc.balance - a := by
  simp [BankAccount.withdraw, h1, h2]

theorem withdraw_ok_history (acc : BankAccount) (a : ℚ)
    (h1 : 0 < a) (h2 : a ≤ acc.balance) :
    (acc.withdraw a).2.transaction_history
      = acc.transaction_history ++ [⟨TxKind.withdrawal, a, acc.balance - a⟩] := by
  simp [BankAccount.withdraw, h1, h2]

theorem withdraw_ok_notif (acc : BankAccount) (ns : NotificationSystem) (a : ℚ)
    (h1 : 0 < a) (h2 : a ≤ acc.balance) (hns : acc.notification_system = some ns) :
    (acc.withdraw a).2.notification_system
      = some ⟨ns.notifications ++
          [⟨"Withdrawal of $" ++ fmt2 a ++ " successful. New balance: $"
              ++ fmt2 (acc.balance - a), "withdrawal", none⟩]⟩ := by
  simp [BankAccount.withdraw, h1, h2, hns, NotificationSystem.send_notification]

theorem withdraw_ok_notif_none (acc : BankAccount) (a : ℚ)
    (h1 : 0 < a) (h2 : a ≤ acc.balance) (hns : acc.notification_system = none) :
    (acc.withdraw a).2.notification_system = none := by
  simp [BankAccount.withdraw, h1, h2, hns]

theorem withdraw_fail_eq (acc : BankAccount) (a : ℚ)
    (h : ¬ (0 < a ∧ a ≤ acc.balance)) :
    acc.withdraw a = (false, acc) := by
  simp [BankAccount.withdraw, h]

/-! ### Claims C1 to C4 -/

/-- Claim C1: for every account state and every amount `a > 0`,
`deposit a` returns `true`, increases the balance by exactly `a`, and
appends exactly one record `⟨deposit, a, new balance⟩` to the
transaction history. -/
theorem deposit_positive_spec (acc : BankAccount) (a : ℚ) (h : 0 < a) :
    (acc.deposit a).1 = true ∧
    (acc.deposit a).2.balance = acc.balance + a ∧
    (acc.deposit a).2.transaction_history
      = acc.transaction_history ++ [⟨TxKind.deposit, a, acc.balance + a⟩] :=
  ⟨deposit_pos_fst acc a h, deposit_pos_balance acc a h,
    deposit_pos_history acc a h⟩

/-- Witness for C1 at the account `BankAccount.init 100 none`
and the amount `50`. -/
theorem deposit_positive_spec_witness :
    (0 : ℚ) < 50 ∧
    (((BankAccount.init 100 none).deposit 50).1 = true ∧
     ((BankAccount.init 100 none).deposit 50).2.balance = 100 + 50 ∧
     ((BankAccount.init 100 none).deposit 50).2.transaction_history
       = [⟨TxKind.deposit, 50, 100 + 50⟩]) :=
  ⟨by decide, deposit_positive_spec (BankAccount.init 100 none) 50 (by decide)⟩

/-- Claim C2: for every account state and every amount `a` with
`0 < a ≤ balance`, `withdraw a` returns `true`, decreases the balance by
exactly `a`, and appends exactly one record `⟨withdrawal, a, new balance⟩`;
in particular withdrawing the full balance leaves balance `0`. -/
theorem withdraw_in_range_spec (acc : BankAccount) (a : ℚ)
    (h1 : 0 < a) (h2 : a ≤ acc.balance) :
    (acc.withdraw a).1 = true ∧
    (acc.withdraw a).2.balance = acc.balance - a ∧
    (acc.withdraw a).2.transaction_history
      = acc.transaction_history ++ [⟨TxKind.withdrawal, a, acc.balance - a⟩] ∧
    (a = acc.balance → (acc.withdraw a).2.balance = 0) := by
  refine ⟨withdraw_ok_fst acc a h1 h2, withdraw_ok_balance acc a h1 h2,
    withdraw_ok_history acc a h1 h2, ?_⟩
  intro he
  rw [withdraw_ok_balance acc a h1 h2, he, sub_self]

/-- Witness for C2 at the account `BankAccount.init 100 none` and the
amount `100` (a full-balance withdrawal). -/
theorem withdraw_in_range_spec_witness :
    (0 : ℚ) < 100 ∧ (100 : ℚ) ≤ (BankAccount.init 100 none).balance ∧
    (((BankAccount.init 100 none).withdraw 100).1 = true ∧
     ((BankAccount.init 100 none).withdraw 100).2.balance = 100 - 100 ∧
     ((BankAccount.init 100 none).withdraw 100).2.transaction_history
       = [⟨TxKind.withdrawal, 100, 100 - 100⟩] ∧
     ((100 : ℚ) = (BankAccount.init 100 none).balance →
       ((BankAccount.init 100 none).withdraw 100).2.balance = 0)) :=
  ⟨by decide, by decide,
    withdraw_in_range_spec (BankAccount.init 100 none) 100 (by decide) (by decide)⟩

/-- Claim C3: for every account state and every amount `a ≤ 0`,
`deposit a` returns `false` and leaves the entire state unchanged:
the balance, the transaction history and the notification system (so the
notifier is never invoked, even when one is attached). -/
theorem deposit_nonpositive_spec (acc : BankAccount) (a : ℚ) (h : a ≤ 0) :
    acc.deposit a = (false, acc) ∧
    (acc.deposit a).2.balance = acc.balance ∧
    (acc.deposit a).2.transaction_history = acc.transaction_history ∧
    (acc.deposit a).2.notification_system = acc.notification_system := by
  have heq := deposit_nonpos_eq acc a (not_lt.mpr h)
  exact ⟨heq, by rw [heq], by rw [heq], by rw [heq]⟩

/-- Witness for C3 at an account with an attached notification system and
the amount `-5`. -/
theorem deposit_nonpositive_spec_witness :
    (-5 : ℚ) ≤ 0 ∧
    ((BankAccount.init 0 (some NotificationSystem.init)).deposit (-5)
        = (false, BankAccount.init 0 (some NotificationSystem.init)) ∧
     ((BankAccount.init 0 (some NotificationSystem.init)).deposit (-5)).2.balance
        = (BankAccount.init 0 (some NotificationSystem.init)).balance ∧
     ((BankAccount.init 0 (some NotificationSystem.init)).deposit (-5)).2.transaction_history
        = (BankAccount.init 0 (some NotificationSystem.init)).transaction_history ∧
     ((BankAccount.init 0 (some NotificationSystem.init)).deposit (-5)).2.notification_system
        = (BankAccount.init 0 (some NotificationSystem.init)).notification_system) :=
  ⟨by decide,
    deposit_nonpositive_spec (BankAccount.init 0 (some NotificationSystem.init))
      (-5) (by decide)⟩

/-- Claim C4: for every account state (negative balances included) and
every amount `a` with `a ≤ 0` or `a > balance`, `withdraw a` returns
`false` and leaves the state unchanged: balance, transaction history and
notification system. -/
theorem withdraw_invalid_spec (acc : BankAccount) (a : ℚ)
    (h : a ≤ 0 ∨ acc.balance < a) :
    acc.withdraw a = (false, acc) ∧
    (acc.withdraw a).2.balance = acc.balance ∧
    (acc.withdraw a).2.transaction_history = acc.transaction_history ∧
    (acc.withdraw a).2.notification_system = acc.notification_system := by
  have hnot : ¬ (0 < a ∧ a ≤ acc.balance) := by
    rcases h with h | h
    · exact fun hc => absurd hc.1 (not_lt.mpr h)
    · exact fun hc => absurd hc.2 (not_le.mpr h)
  have heq := withdraw_fail_eq acc a hnot
  exact ⟨heq, by rw [heq], by rw [heq], by rw [heq]⟩

/-- Witness for C4 at an account with the negative balance `-10` and the
amount `5` (which exceeds the balance). -/
theorem withdraw_invalid_spec_witness :
    ((5 : ℚ) ≤ 0 ∨ (BankAccount.init (-10) none).balance < 5) ∧
    ((BankAccount.init (-10) none).withdraw 5
        = (false, BankAccount.init (-10) none) ∧
     ((BankAccount.init (-10) none).withdraw 5).2.balance
        = (BankAccount.init (-10) none).balance ∧
     ((BankAccount.init (-10) none).withdraw 5).2.transaction_history
        = (BankAccount.init (-10) none).transaction_history ∧
     ((BankAccount.init (-10) none).withdraw 5).2.notification_system
        = (BankAccount.init (-10) none).notification_system) :=
  ⟨Or.inr (by decide),
    withdraw_invalid_spec (BankAccount.init (-10) none) 5 (Or.inr (by decide))⟩

/-! ### Claim C5: notification behavior of successful operations -/

theorem deposit_ignores_notifier (b : ℚ) (nso1 nso2 : Option NotificationSystem)
    (hist : List Txn) (a : ℚ) :
    ((BankAccount.mk b nso1 hist).deposit a).1
        = ((BankAccount.mk b nso2 hist).deposit a).1 ∧
    ((BankAccount.mk b nso1 hist).deposit a).2.balance
        = ((BankAccount.mk b nso2 hist).deposit a).2.balance ∧
    ((BankAccount.mk b nso1 hist).deposit a).2.transaction_history
        = ((BankAccount.mk b nso2 hist).deposit a).2.transaction_history := by
  by_cases h : a > 0 <;> simp [BankAccount.deposit, h]

theorem withdraw_ignores_notifier (b : ℚ) (nso1 nso2 : Option NotificationSystem)
    (hist : List Txn) (a : ℚ) :
    ((BankAccount.mk b nso1 hist).withdraw a).1
        = ((BankAccount.mk b nso2 hist).withdraw a).1 ∧
    ((BankAccount.mk b nso1 hist).withdraw a).2.balance
        = ((BankAccount.mk b nso2 hist).withdraw a).2.balance ∧
    ((BankAccount.mk b nso1 hist).withdraw a).2.transaction_history
        = ((BankAccount.mk b nso2 hist).withdraw a).2.transaction_history := by
  by_cases h : 0 < a ∧ a ≤ b <;> simp [BankAccount.withdraw, h]

theorem deposit_none_keeps_none (b : ℚ) (hist : List Txn) (a : ℚ) :
    ((BankAccount.mk b none hist).deposit a).2.notification_system = none := by
  by_cases h : a > 0 <;> simp [BankAccount.deposit, h]

theorem withdraw_none_keeps_none (b : ℚ) (hist : List Txn) (a : ℚ) :
    ((BankAccount.mk b none hist).withdraw a).2.notification_system = none := by
  by_cases h : 0 < a ∧ a ≤ b <;> simp [BankAccount.withdraw, h]

/-- Claim C5: with a notification system attached, every successful
`deposit a` (respectively `withdraw a`) leaves the notifier holding exactly
one new record, appended after the existing ones, whose message is exactly
`"Deposit of $<a, 2 decimals> successful. New balance: $<new balance, 2 decimals>"`
(respectively `"Withdrawal of ..."`) — the new balance in the message being
the post-mutation balance — and whose category is `"deposit"`
(respectively `"withdrawal"`); with no notification system attached the
operation returns the same result, balance and history, and sends
nothing. -/
theorem notification_on_success_spec (acc : BankAccount) (ns : NotificationSystem)
    (a : ℚ) (hns : acc.notification_system = some ns) :
    (0 < a →
      (acc.deposit a).2.notification_system
        = some ⟨ns.notifications ++
            [⟨"Deposit of $" ++ fmt2 a ++ " successful. New balance: $"
                ++ fmt2 (acc.balance + a), "deposit", none⟩]⟩) ∧
    (0 < a → a ≤ acc.balance →
      (acc.withdraw a).2.notification_system
        = some ⟨ns.notifications ++
            [⟨"Withdrawal of $" ++ fmt2 a ++ " successful. New balance: $"
                ++ fmt2 (acc.balance - a), "withdrawal", none⟩]⟩) ∧
    (((BankAccount.mk acc.balance none acc.transaction_history).deposit a).1
        = (acc.deposit a).1 ∧
     ((BankAccount.mk acc.balance none acc.transaction_history).deposit a).2.balance
        = (acc.deposit a).2.balance ∧
     ((BankAccount.mk acc.balance none acc.transaction_history).deposit a).2.transaction_history
        = (acc.deposit a).2.transaction_history ∧
     ((BankAccount.mk acc.balance none acc.transaction_history).deposit a).2.notification_system
        = none) ∧
    (((BankAccount.mk acc.balance none acc.transaction_history).withdraw a).1
        = (acc.withdraw a).1 ∧
     ((BankAccount.mk acc.balance none acc.transaction_history).withdraw a).2.balance
        = (acc.withdraw a).2.balance ∧
     ((BankAccount.mk acc.balance none acc.transaction_history).withdraw a).2.transaction_history
        = (acc.withdraw a).2.transaction_history ∧
     ((BankAccount.mk acc.balance none acc.transaction_history).withdraw a).2.notification_system
        = none) := by
  obtain ⟨b, nso, hist⟩ := acc
  simp only at hns
  subst hns
  refine ⟨fun h => deposit_pos_notif _ ns a h rfl,
    fun h1 h2 => withdraw_ok_notif _ ns a h1 h2 rfl, ?_, ?_⟩
  · exact ⟨(deposit_ignores_notifier b none (some ns) hist a).1,
      (deposit_ignores_notifier b none (some ns) hist a).2.1,
      (deposit_ignores_notifier b none (some ns) hist a).2.2,
      deposit_none_keeps_none b hist a⟩
  · exact ⟨(withdraw_ignores_notifier b none (some ns) hist a).1,
      (withdraw_ignores_notifier b none (some ns) hist a).2.1,
      (withdraw_ignores_notifier b none (some ns) hist a).2.2,
      withdraw_none_keeps_none b hist a⟩

/-- Witness for C5: depositing `50` into `BankAccount.init 100` with a
fresh notification system attached records exactly one deposit
notification with the expected message. -/
theorem notification_on_success_spec_witness :
    ((BankAccount.init 100 (some NotificationSystem.init)).deposit 50).2.notification_system
      = some ⟨[⟨"Deposit of $" ++ fmt2 50 ++ " successful. New balance: $"
          ++ fmt2 (100 + 50), "deposit", none⟩]⟩ :=
  (notification_on_success_spec (BankAccount.init 100 (some NotificationSystem.init))
    NotificationSystem.init 50 rfl).1 (by decide)

/-! ### Claim C6: counting history entries and notifications over traces -/

/-- A call to one of the two mutating methods of `BankAccount`. -/
inductive AccountOp where
  | deposit (amount : ℚ)
  | withdraw (amount : ℚ)
deriving DecidableEq, Repr

/-- Perform one mutating call on the integration account. -/
def BankAccount.step (acc : BankAccount) : AccountOp → Bool × BankAccount
  | .deposit a => acc.deposit a
  | .withdraw a => acc.withdraw a

/-- Perform a finite sequence of mutating calls, collecting the boolean
results in call order. -/
def BankAccount.run (acc : BankAccount) : List AccountOp → List Bool × BankAccount
  | [] => ([], acc)
  | op :: ops =>
      let r := acc.step op
      let rest := r.2.run ops
      (r.1 :: rest.1, rest.2)

/-- Length of the log of an optional notification system (`0` when absent). -/
def notifLength : Option NotificationSystem → Nat
  | some ns => ns.notifications.length
  | none => 0

theorem step_history_length (acc : BankAccount) (op : AccountOp) :
    (acc.step op).2.transaction_history.length
      = acc.transaction_history.length
        + (if (acc.step op).1 = true then 1 else 0) := by
  cases op with
  | deposit a =>
      by_cases h : 0 < a
      · simp [BankAccount.step, deposit_pos_history acc a h, deposit_pos_fst acc a h]
      · simp [BankAccount.step, deposit_nonpos_eq acc a h]
  | withdraw a =>
      by_cases h : 0 < a ∧ a ≤ acc.balance
      · simp [BankAccount.step, withdraw_ok_history acc a h.1 h.2,
          withdraw_ok_fst acc a h.1 h.2]
      · simp [BankAccount.step, withdraw_fail_eq acc a h]

theorem step_notif_some (acc : BankAccount) (ns : NotificationSystem)
    (op : AccountOp) (hns : acc.notification_system = some ns) :
    ∃ ns2, (acc.step op).2.notification_system = some ns2 ∧
      ns2.notifications.length
        = ns.notifications.length + (if (acc.step op).1 = true then 1 else 0) := by
  cases op with
  | deposit a =>
      by_cases h : 0 < a
      · refine ⟨_, deposit_pos_notif acc ns a h hns, ?_⟩
        simp [BankAccount.step, deposit_pos_fst acc a h]
      · refine ⟨ns, ?_, ?_⟩ <;>
          simp [BankAccount.step, deposit_nonpos_eq acc a h, hns]
  | withdraw a =>
      by_cases h : 0 < a ∧ a ≤ acc.balance
      · refine ⟨_, withdraw_ok_notif acc ns a h.1 h.2 hns, ?_⟩
        simp [BankAccount.step, withdraw_ok_fst acc a h.1 h.2]
      · refine ⟨ns, ?_, ?_⟩ <;>
          simp [BankAccount.step, withdraw_fail_eq acc a h, hns]

theorem run_history_length (ops : List AccountOp) (acc : BankAccount) :
    (acc.run ops).2.transaction_history.length
      = acc.transaction_history.length + (acc.run ops).1.count true := by
  induction ops generalizing acc with
  | nil => simp [BankAccount.run]
  | cons op ops ih =>
      simp only [BankAccount.run]
      rw [ih (acc.step op).2, step_history_length]
      cases hb : (acc.step op).1 <;> simp [List.count_cons, hb]
      omega

theorem run_notif_some (ops : List AccountOp) (acc : BankAccount)
    (ns : NotificationSystem) (hns : acc.notification_system = some ns) :
    ∃ ns2, (acc.run ops).2.notification_system = some ns2 ∧
      ns2.notifications.length
        = ns.notifications.length + (acc.run ops).1.count true := by
  induction ops generalizing acc ns with
  | nil => exact ⟨ns, by simpa [BankAccount.run] using hns, by simp [BankAccount.run]⟩
  | cons op ops ih =>
      obtain ⟨ns1, h1, h2⟩ := step_notif_some acc ns op hns
      obtain ⟨ns2, h3, h4⟩ := ih (acc.step op).2 ns1 h1
      refine ⟨ns2, ?_, ?_⟩
      · simpa [BankAccount.run] using h3
      · simp only [BankAccount.run]
        rw [h4, h2]
        cases hb : (acc.step op).1 <;> simp [List.count_cons, hb]
        omega

/-- Claim C6: after any finite sequence of deposit and withdraw calls on
an account constructed with any initial balance, the length of the
transaction history equals the number of calls that returned `true`; and
when a fresh notification system is attached from construction, the length
of its log equals the length of the transaction history. -/
theorem history_counts_spec (b0 : ℚ) (nsOpt : Option NotificationSystem)
    (ops : List AccountOp) :
    ((BankAccount.init b0 nsOpt).run ops).2.transaction_history.length
      = ((BankAccount.init b0 nsOpt).run ops).1.count true ∧
    notifLength ((BankAccount.init b0 (some NotificationSystem.init)).run ops).2.notification_system
      = ((BankAccount.init b0 (some NotificationSystem.init)).run ops).2.transaction_history.length := by
  constructor
  · have h := run_history_length ops (BankAccount.init b0 nsOpt)
    simpa [BankAccount.init] using h
  · obtain ⟨ns2, h1, h2⟩ :=
      run_notif_some ops (BankAccount.init b0 (some NotificationSystem.init))
        NotificationSystem.init rfl
    have h3 := run_history_length ops (BankAccount.init b0 (some NotificationSystem.init))
    rw [h1]
    simp only [notifLength]
    rw [h2]
    simp [NotificationSystem.init, BankAccount.init] at h3 ⊢
    omega

/-! ### Claim C10: the minimal account refines the integration account -/

/-- `class BankAccount` of `bank_account.py`: the minimal variant holding
only a balance (renamed `SimpleBankAccount` here because Lean cannot host
two structures of the same name). -/
structure SimpleBankAccount where
  balance : ℚ
deriving DecidableEq, Repr

/-- `BankAccount.__init__(initial_balance)` of `bank_account.py`. -/
def SimpleBankAccount.init (initial_balance : ℚ) : SimpleBankAccount :=
  ⟨initial_balance⟩

/-- `BankAccount.deposit(amount)` of `bank_account.py`. -/
def SimpleBankAccount.deposit (acc : SimpleBankAccount) (amount : ℚ) :
    Bool × SimpleBankAccount :=
  if amount > 0 then (true, ⟨acc.balance + amount⟩) else (false, acc)

/-- `BankAccount.withdraw(amount)` of `bank_account.py`:
`0 < amount <= self.balance`. -/
def SimpleBankAccount.withdraw (acc : SimpleBankAccount) (amount : ℚ) :
    Bool × SimpleBankAccount :=
  if 0 < amount ∧ amount ≤ acc.balance then (true, ⟨acc.balance - amount⟩)
  else (false, acc)

/-- `BankAccount.get_balance` of `bank_account.py`. -/
def SimpleBankAccount.get_balance (acc : SimpleBankAccount) : ℚ :=
  acc.balance

/-- One mutating call on the minimal account. -/
def SimpleBankAccount.step (acc : SimpleBankAccount) :
    AccountOp → Bool × SimpleBankAccount
  | .deposit a => acc.deposit a
  | .withdraw a => acc.withdraw a

/-- Trace of a call sequence on the minimal account: for each call, the
boolean result and the balance right after the call. -/
def SimpleBankAccount.runTrace (acc : SimpleBankAccount) :
    List AccountOp → List (Bool × ℚ)
  | [] => []
  | op :: ops =>
      let r := acc.step op
      (r.1, r.2.balance) :: r.2.runTrace ops

/-- Trace of a call sequence on the integration account: for each call,
the boolean result and the balance right after the call. -/
def BankAccount.runTrace (acc : BankAccount) :
    List AccountOp → List (Bool × ℚ)
  | [] => []
  | op :: ops =>
      let r := acc.step op
      (r.1, r.2.balance) :: r.2.runTrace ops

theorem step_agree (op : AccountOp) (s : SimpleBankAccount) (acc : BankAccount)
    (hb : s.balance = acc.balance) (hn : acc.notification_system = none) :
    (s.step op).1 = (acc.step op).1 ∧
    (s.step op).2.balance = (acc.step op).2.balance ∧
    (acc.step op).2.notification_system = none := by
  cases op with
  | deposit a =>
      by_cases h : 0 < a <;>
        simp [SimpleBankAccount.step, BankAccount.step, SimpleBankAccount.deposit,
          BankAccount.deposit, h, hb, hn]
  | withdraw a =>
      by_cases h : 0 < a ∧ a ≤ acc.balance <;>
        simp [SimpleBankAccount.step, BankAccount.step, SimpleBankAccount.withdraw,
          BankAccount.withdraw, hb, hn, h]

theorem runTrace_agree (ops : List AccountOp) (s : SimpleBankAccount)
    (acc : BankAccount) (hb : s.balance = acc.balance)
    (hn : acc.notification_system = none) :
    s.runTrace ops = acc.runTrace ops := by
  induction ops generalizing s acc with
  | nil => simp [SimpleBankAccount.runTrace, BankAccount.runTrace]
  | cons op ops ih =>
      obtain ⟨h1, h2, h3⟩ := step_agree op s acc hb hn
      simp only [SimpleBankAccount.runTrace, BankAccount.runTrace]
      rw [h1, h2, ih (s.step op).2 (acc.step op).2 h2 h3]

/-- Claim C10: for every initial balance and every finite sequence of
deposit and withdraw calls, the minimal account of `bank_account.py` and
the integration account of `bank_account_integration.py` (constructed
without a notification system) return the same boolean result for each
call and hold the same balance after each call. -/
theorem minimal_integration_equiv (b0 : ℚ) (ops : List AccountOp) :
    (SimpleBankAccount.init b0).runTrace ops
      = (BankAccount.init b0 none).runTrace ops :=
  runTrace_agree ops (SimpleBankAccount.init b0) (BankAccount.init b0 none) rfl rfl

/-! ### Claim C7: the boolean-result policy never raises for numeric input

Python can raise only at the comparisons `amount > 0` and
`0 < amount <= self.balance` (a `TypeError` for non-numeric operands); the
rest of each method body — numeric arithmetic, list append, f-string
formatting of numbers, `send_notification` — is total.  The embedding
below makes the potentially raising comparisons explicit in the `Except`
monad and keeps everything after a successful comparison as the pure code. -/

/-- A Python exception, as far as the embedded code can raise one. -/
inductive PyError where
  | typeError
deriving DecidableEq, Repr

/-- A Python value passed as `amount`: a number, or a representative
non-numeric value. -/
inductive PyVal where
  | num (q : ℚ)
  | str (s : String)
deriving DecidableEq, Repr

/-- Python `v > w` for the comparisons the code performs (one operand is
always numeric there): raises `TypeError` unless both are numbers. -/
def pyGt (v w : PyVal) : Except PyError Bool :=
  match v, w with
  | .num a, .num b => .ok (decide (b < a))
  | _, _ => .error .typeError

/-- Python `v < w` under the same conditions as `pyGt`. -/
def pyLt (v w : PyVal) : Except PyError Bool :=
  match v, w with
  | .num a, .num b => .ok (decide (a < b))
  | _, _ => .error .typeError

/-- Python `v <= w` under the same conditions as `pyGt`. -/
def pyLe (v w : PyVal) : Except PyError Bool :=
  match v, w with
  | .num a, .num b => .ok (decide (a ≤ b))
  | _, _ => .error .typeError

/-- `BankAccount.deposit` with the possibly raising comparison
`amount > 0` made explicit; once the comparison has succeeded the amount
is numeric and the rest of the body is the total function
`BankAccount.deposit`. -/
def BankAccount.depositE (acc : BankAccount) (amount : PyVal) :
    Except PyError (Bool × BankAccount) :=
  match pyGt amount (.num 0) with
  | .error e => .error e
  | .ok c =>
      if c then
        match amount with
        | .num a => .ok (acc.deposit a)
        | .str _ => .error .typeError
      else
        .ok (false, acc)

/-- `BankAccount.withdraw` with the chained comparison
`0 < amount <= self.balance` made explicit: Python evaluates `0 < amount`
first and `amount <= self.balance` only if the first held. -/
def BankAccount.withdrawE (acc : BankAccount) (amount : PyVal) :
    Except PyError (Bool × BankAccount) :=
  match pyLt (.num 0) amount with
  | .error e => .error e
  | .ok c1 =>
      if c1 then
        match pyLe amount (.num acc.balance) with
        | .error e => .error e
        | .ok c2 =>
            if c2 then
              match amount with
              | .num a => .ok (acc.withdraw a)
              | .str _ => .error .typeError
            else
              .ok (false, acc)
      else
        .ok (false, acc)

/-- Claim C7: for every numeric amount, `deposit` and `withdraw` never
raise — the run in the exception-aware embedding returns `ok` with
exactly the pure result — and invalid amounts are reported solely through
the boolean result `false` (`deposit` returns `false` exactly when the
amount is nonpositive, `withdraw` exactly when the amount is nonpositive
or exceeds the balance). -/
theorem no_exception_spec (acc : BankAccount) (q : ℚ) :
    acc.depositE (.num q) = .ok (acc.deposit q) ∧
    acc.withdrawE (.num q) = .ok (acc.withdraw q) ∧
    ((acc.deposit q).1 = false ↔ q ≤ 0) ∧
    ((acc.withdraw q).1 = false ↔ (q ≤ 0 ∨ acc.balance < q)) := by
  refine ⟨?_, ?_, ?_, ?_⟩
  · by_cases h : 0 < q
    · simp [BankAccount.depositE, pyGt, h]
    · simp [BankAccount.depositE, pyGt, h, deposit_nonpos_eq acc q h]
  · by_cases h1 : 0 < q
    · by_cases h2 : q ≤ acc.balance
      · simp [BankAccount.withdrawE, pyLt, pyLe, h1, h2]
      · have hno : ¬ (0 < q ∧ q ≤ acc.balance) := fun hc => h2 hc.2
        simp [BankAccount.withdrawE, pyLt, pyLe, h1, h2,
          withdraw_fail_eq acc q hno]
    · have hno : ¬ (0 < q ∧ q ≤ acc.balance) := fun hc => h1 hc.1
      simp [BankAccount.withdrawE, pyLt, h1, withdraw_fail_eq acc q hno]
  · by_cases h : 0 < q
    · simp [deposit_pos_fst acc q h, not_le.mpr h]
    · simp [deposit_nonpos_eq acc q h, not_lt.mp h]
  · by_cases h1 : 0 < q
    · by_cases h2 : q ≤ acc.balance
      · simp [withdraw_ok_fst acc q h1 h2, not_le.mpr h1, not_lt.mpr h2]
      · have hno : ¬ (0 < q ∧ q ≤ acc.balance) := fun hc => h2 hc.2
        simp [withdraw_fail_eq acc q hno, not_le.mp h2]
    · have hno : ¬ (0 < q ∧ q ≤ acc.balance) := fun hc => h1 hc.1
      simp [withdraw_fail_eq acc q hno, not_lt.mp h1]

/-! ### Claim C8: the notification system's own operations -/

/-- Claim C8: for every message and category, `send_notification` appends
exactly one record `⟨message, category, timestamp absent⟩` to the log and
returns `true`; `get_notifications` returns the records in send order
(the new record appended after the existing ones); `clear_notifications`
empties the log and leaves every account's balance and transaction
history unchanged. -/
theorem notifier_log_spec (ns : NotificationSystem) (message category : String)
    (acc : BankAccount) :
    (ns.send_notification message category).1 = true ∧
    (ns.send_notification message category).2.notifications
      = ns.notifications ++ [⟨message, category, none⟩] ∧
    NotificationSystem.get_notifications (ns.send_notification message category).2
      = NotificationSystem.get_notifications ns ++ [⟨message, category, none⟩] ∧
    (ns.clear_notifications).notifications = [] ∧
    (acc.set_notification_system (some ns.clear_notifications)).balance = acc.balance ∧
    (acc.set_notification_system (some ns.clear_notifications)).get_transaction_history
      = acc.get_transaction_history :=
  ⟨rfl, rfl, rfl, rfl, rfl, rfl⟩

/-! ### Claim C9: `get_transaction_history` is an alias, not a read-only view

`get_transaction_history` executes `return self.transaction_history`: it
hands the caller the internal Python list object itself, not a copy.  The
state-passing embedding cannot see object identity, so this refinement of
the embedding makes it explicit: list objects live in a heap indexed by
references, the account stores the reference to its history list, and
`get_transaction_history` returns that reference — exactly what returning
a Python list object is.  `ListHeap.push` is a caller performing
`lst.append(t)` on a list object it holds. -/

/-- A heap of Python list objects holding transaction records, indexed by
object reference. -/
def ListHeap : Type := Nat → List Txn

/-- Dereference a list object. -/
def ListHeap.read (h : ListHeap) (r : Nat) : List Txn := h r

/-- A caller executing `lst.append(t)` on the list object `r`. -/
def ListHeap.push (h : ListHeap) (r : Nat) (t : Txn) : ListHeap :=
  fun i => if i = r then h i ++ [t] else h i

/-- The integration `BankAccount` at reference level: the field
`transaction_history` is the reference to the account's history list
object in the heap. -/
structure BankAccountRef where
  balance : ℚ
  transaction_history : Nat

/-- `BankAccount.get_transaction_history` at reference level:
`return self.transaction_history` returns the list object itself, i.e.
the reference. -/
def BankAccountRef.get_transaction_history (acc : BankAccountRef) : Nat :=
  acc.transaction_history

/-- Counterexample to C9 as stated: on an account whose history list is
the (empty) list object `0` in the heap, a caller appending one record to
the value returned by `get_transaction_history` changes the account's
internal transaction history. -/
theorem history_view_counterexample :
    ¬ (ListHeap.read
          (ListHeap.push (fun _ => []) ((BankAccountRef.mk 100 0).get_transaction_history)
            ⟨TxKind.deposit, 7, 107⟩)
          (BankAccountRef.mk 100 0).transaction_history
        = ListHeap.read (fun _ => []) (BankAccountRef.mk 100 0).transaction_history) := by
  simp [ListHeap.read, ListHeap.push, BankAccountRef.get_transaction_history]

/-- Amended C9: `get_transaction_history` returns the ordered sequence of
transaction records, but as the internal list itself (an alias), not a
read-only view: for every account, heap and record, a caller appending a
record through the returned value appends it to the account's internal
transaction history. -/
theorem history_alias_spec (h : ListHeap) (acc : BankAccountRef) (t : Txn)
    (acc2 : BankAccount) :
    BankAccount.get_transaction_history acc2 = acc2.transaction_history ∧
    acc.get_transaction_history = acc.transaction_history ∧
    ListHeap.read (ListHeap.push h acc.get_transaction_history t)
        acc.transaction_history
      = ListHeap.read h acc.transaction_history ++ [t] :=
  ⟨rfl, rfl, by simp [ListHeap.read, ListHeap.push, BankAccountRef.get_transaction_history]⟩
